import Mathlib

/-!
Verification of the A/B-testing decision pipeline in `ab_utils.py`
(repository `tkumru/AB_Testing_Project`).

Shallow embedding. Samples are lists of rationals (the code manipulates
exact numeric observations; we idealise IEEE floats by exact rational
arithmetic). The external statistical library (scipy's `shapiro`,
`levene`, `ttest_ind`, `mannwhitneyu`) and the pandas plotting call
`Series.plot.kde` are external collaborators: they are modelled
abstractly by a record `StatsLib` of fallible functions returning
`Except String (ℚ × ℚ)` (an `Except.error` models a raised Python
exception, `Except.ok (stat, p)` a returned `(test_stat, p_value)`
pair). Each pipeline step of the source is translated as a pure
function parameterised by a `StatsLib`; the log lines the source emits
(`logg.info` / `logg.debug` / `logg.error`) are made observable as a
trace of `LogEvent`s, so that statements about which check is
*performed* (not just which value is returned) can be stated.
-/

set_option autoImplicit false

namespace ABTest

/-- Abstract interface of the external statistical and plotting
collaborators used by `ab_utils.py`:

* `shapiro q` models `scipy.stats.shapiro(query)`;
* `levene q1 q2` models `scipy.stats.levene(query1, query2)`;
* `ttest_ind q1 q2 ev` models `scipy.stats.ttest_ind(query1, query2,
  equal_var=ev)`;
* `mannwhitneyu q1 q2` models `scipy.stats.mannwhitneyu(query1, query2)`;
* `kde q` models the plotting call `query.plot.kde(...)`, which is an
  arbitrary library call inside the `try` block of `check_normality`
  and can itself raise (e.g. `LinAlgError: singular matrix` on a
  constant sample).

`Except.error msg` models a raised exception, `Except.ok v` a normal
return. -/
structure StatsLib where
  shapiro : List ℚ → Except String (ℚ × ℚ)
  levene : List ℚ → List ℚ → Except String (ℚ × ℚ)
  ttest_ind : List ℚ → List ℚ → Bool → Except String (ℚ × ℚ)
  mannwhitneyu : List ℚ → List ℚ → Except String (ℚ × ℚ)
  kde : List ℚ → Except String Unit

/-- Observable log events, one per `logg.*` call of `ab_utils.py`.
The constructors record, in source order:

* `checkingNorm c v` — `apply_ab_test`'s
  `logg.info(f"Checking normal distribution for {col_name} == {col_value}:")`;
* `checkingHom` — `apply_ab_test`'s `logg.info("Checking variance homogeneity:")`;
* `normStat s p` / `homStat s p` / `paramStat s p` / `nonparamStat s p` —
  the `logg.info(f"Test Stat = ...\tp_value = ...")` line of each step;
* `normPass`/`normFail`, `homPass`/`homFail`, `paramPass`/`paramFail`,
  `nonparamPass`/`nonparamFail` — the `logg.debug` "cannot be rejected" /
  "was rejected" lines;
* `normError`/`homError`/`paramError`/`nonparamError` — the
  `logg.error` line of each `except` branch;
* `paramStart` / `nonparamStart` — the
  `logg.info("... test is starting for passed tests.")` lines. -/
inductive LogEvent where
  | checkingNorm (colName colValue : String)
  | checkingHom
  | normStat (stat p : ℚ)
  | normPass
  | normFail
  | normError
  | homStat (stat p : ℚ)
  | homPass
  | homFail
  | homError
  | paramStart
  | paramStat (stat p : ℚ)
  | paramPass
  | paramFail
  | paramError
  | nonparamStart
  | nonparamStat (stat p : ℚ)
  | nonparamPass
  | nonparamFail
  | nonparamError
  deriving DecidableEq, Repr

/-- Translation of `check_normality(query, plot)` (ab_utils.py lines
45–85).  Source body:

    try:
        test_stat, p_value = shapiro(query)
        logg.info(...)
        if plot: query.plot.kde(title="Normal Distribution")
        if not p_value < 0.05: return True
        else: return False
    except Exception: logg.error(...); return False

Returns the emitted log trace and the boolean verdict.  Note that the
plotting call sits inside the `try`, after `shapiro` succeeded and
before the threshold test, so its failure is also mapped to `false`. -/
def check_normality (S : StatsLib) (query : List ℚ) (plot : Bool) :
    List LogEvent × Bool :=
  match S.shapiro query with
  | .error _ => ([.normError], false)
  | .ok (stat, p) =>
    match (if plot then S.kde query else .ok ()) with
    | .error _ => ([.normStat stat p, .normError], false)
    | .ok _ =>
      if ¬ p < 1/20 then ([.normStat stat p, .normPass], true)
      else ([.normStat stat p, .normFail], false)

/-- Translation of `check_homogeneity(query1, query2)` (ab_utils.py
lines 87–125): `levene(query1, query2)` inside a `try`, verdict
`not p_value < 0.05`, any exception mapped to `false`. -/
def check_homogeneity (S : StatsLib) (query1 query2 : List ℚ) :
    List LogEvent × Bool :=
  match S.levene query1 query2 with
  | .error _ => ([.homError], false)
  | .ok (stat, p) =>
    if ¬ p < 1/20 then ([.homStat stat p, .homPass], true)
    else ([.homStat stat p, .homFail], false)

/-- Translation of `apply_parametric(query1, query2, homogen)`
(ab_utils.py lines 193–235): `ttest_ind(query1, query2,
equal_var=homogen)` inside a `try`, verdict `not p_value < 0.05`, any
exception mapped to `false`. -/
def apply_parametric (S : StatsLib) (query1 query2 : List ℚ)
    (homogen : Bool) : List LogEvent × Bool :=
  match S.ttest_ind query1 query2 homogen with
  | .error _ => ([.paramStart, .paramError], false)
  | .ok (stat, p) =>
    if ¬ p < 1/20 then ([.paramStart, .paramStat stat p, .paramPass], true)
    else ([.paramStart, .paramStat stat p, .paramFail], false)

/-- Translation of `apply_nonparametric(query1, query2)` (ab_utils.py
lines 237–282): `mannwhitneyu(query1, query2)` inside a `try`, verdict
`not p_value < 0.05`, any exception mapped to `false`. -/
def apply_nonparametric (S : StatsLib) (query1 query2 : List ℚ) :
    List LogEvent × Bool :=
  match S.mannwhitneyu query1 query2 with
  | .error _ => ([.nonparamStart, .nonparamError], false)
  | .ok (stat, p) =>
    if ¬ p < 1/20 then
      ([.nonparamStart, .nonparamStat stat p, .nonparamPass], true)
    else ([.nonparamStart, .nonparamStat stat p, .nonparamFail], false)

/-- A row of the input dataframe: `strCell c` is the row's value in the
string-valued column `c` (e.g. the grouping column), `numCell c` is the
row's value in the numeric column `c`, with `none` modelling a missing
value (`NaN`). -/
structure Row where
  strCell : String → String
  numCell : String → Option ℚ

/-- A dataframe is its list of rows. -/
abbrev DataFrame := List Row

/-- Translation of the sample-extraction expression of `apply_ab_test`
(ab_utils.py lines 163–164):
`df.loc[df[col_name] == col_value, col_main].dropna()` — keep the rows
whose `col_name` cell equals `col_value`, take their `col_main` cells,
and drop the missing ones. -/
def extract_sample (df : DataFrame) (col_name col_value col_main : String) :
    List ℚ :=
  (df.filter (fun r => r.strCell col_name == col_value)).filterMap
    (fun r => r.numCell col_main)

/-- Translation of `apply_ab_test(df, col_name, col_value1, col_value2,
col_main, plot)` (ab_utils.py lines 127–191).  Source body, in order:

    query1 = df.loc[df[col_name] == col_value1, col_main].dropna()
    query2 = df.loc[df[col_name] == col_value2, col_main].dropna()
    logg.info(f"Checking normal distribution for {col_name} == {col_value1}:")
    normality1 = check_normality(query1, plot)
    logg.info(f"Checking normal distribution for {col_name} == {col_value2}:")
    normality2 = check_normality(query2, plot)
    normality = normality1 and normality2
    logg.info("Checking variance homogeneity:")
    homogeneity = check_homogeneity(query1, query2)
    result = apply_parametric(query1, query2, homogeneity) if normality \
             else apply_nonparametric(query1, query2)
    return result

Returns the concatenated log trace and the final verdict. -/
def apply_ab_test (S : StatsLib) (df : DataFrame)
    (col_name col_value1 col_value2 col_main : String) (plot : Bool) :
    List LogEvent × Bool :=
  let query1 := extract_sample df col_name col_value1 col_main
  let query2 := extract_sample df col_name col_value2 col_main
  let r1 := check_normality S query1 plot
  let r2 := check_normality S query2 plot
  let normality := r1.2 && r2.2
  let rh := check_homogeneity S query1 query2
  let rr := if normality then apply_parametric S query1 query2 rh.2
            else apply_nonparametric S query1 query2
  (LogEvent.checkingNorm col_name col_value1 :: r1.1 ++
    LogEvent.checkingNorm col_name col_value2 :: r2.1 ++
    LogEvent.checkingHom :: rh.1 ++ rr.1, rr.2)

/-- Sample mean, as computed by the statistical collaborator (exact
rational idealisation of the floating-point computation). -/
def mean (q : List ℚ) : ℚ := q.sum / q.length

/-- Unbiased sample variance (denominator `n - 1`), the variance used
by `scipy.stats.ttest_ind` for both variants. -/
def sampleVariance (q : List ℚ) : ℚ :=
  ((q.map (fun x => (x - mean q) ^ 2)).sum) / ((q.length : ℚ) - 1)

/-- Squared standard error of the mean difference used by the
homoscedastic (Student) variant of `ttest_ind` (`equal_var=True`):
pooled variance `((n1-1)s1² + (n2-1)s2²)/(n1+n2-2)` times
`(1/n1 + 1/n2)`. -/
def studentSE2 (q1 q2 : List ℚ) : ℚ :=
  let n1 : ℚ := q1.length
  let n2 : ℚ := q2.length
  (((n1 - 1) * sampleVariance q1 + (n2 - 1) * sampleVariance q2) /
      (n1 + n2 - 2)) * (1 / n1 + 1 / n2)

/-- Squared standard error of the mean difference used by the
heteroscedastic (Welch) variant of `ttest_ind` (`equal_var=False`):
`s1²/n1 + s2²/n2`. -/
def welchSE2 (q1 q2 : List ℚ) : ℚ :=
  sampleVariance q1 / q1.length + sampleVariance q2 / q2.length

/-- Square of the t statistic computed by `scipy.stats.ttest_ind` on
`(q1, q2)` with the given `equal_var` flag:
`t² = (mean q1 - mean q2)² / SE²`, where `SE²` is the pooled (Student)
or unpooled (Welch) squared standard error.  The square determines the
statistic: both variants share the numerator `mean q1 - mean q2` and
have positive `SE`, so the two variants' statistics are equal iff their
squares are. -/
def ttest_ind_statSq (q1 q2 : List ℚ) (equal_var : Bool) : ℚ :=
  (mean q1 - mean q2) ^ 2 /
    (if equal_var then studentSE2 q1 q2 else welchSE2 q1 q2)

/-- State of the global `logging` logger manipulated by
`setup_logger()` (ab_utils.py lines 10–22): the list of attached
handlers.  This is the only mutable state the module touches. -/
structure LoggerState where
  handlers : List String
  deriving DecidableEq, Repr

/-- Translation of `setup_logger()` (ab_utils.py lines 10–22): clears
the handlers of the process-wide logger and attaches one fresh stdout
stream handler, returning the new logger state. -/
def setup_logger (_st : LoggerState) : LoggerState :=
  { handlers := ["stream:stdout"] }

/-- Version of `check_normality` with the mutation of the global
logger made explicit: the call first runs `setup_logger()` on the
incoming logger state, then computes its trace and verdict, which
depend only on the statistical inputs, never on the logger state. -/
def check_normality_run (S : StatsLib) (st : LoggerState) (query : List ℚ)
    (plot : Bool) : LoggerState × (List LogEvent × Bool) :=
  (setup_logger st, check_normality S query plot)

/-- Version of `check_homogeneity` with the mutation of the global
logger made explicit, as in `check_normality_run`. -/
def check_homogeneity_run (S : StatsLib) (st : LoggerState)
    (query1 query2 : List ℚ) : LoggerState × (List LogEvent × Bool) :=
  (setup_logger st, check_homogeneity S query1 query2)

/-- Written from the spec's words, for comparison with the source's
`check_normality` (refinement check for the error-handling claim): per
spec §4.1 and §7, `NormalityChecker` "fails with InsufficientDataError
if sample size is too small, e.g., <3 observations", and this error
"should be surfaced to the caller (not swallowed)"; on larger samples
it behaves as the source does. -/
def check_normality_specSurface (S : StatsLib) (query : List ℚ)
    (plot : Bool) : Except String Bool :=
  if query.length < 3 then .error "InsufficientDataError"
  else .ok (check_normality S query plot).2

/-- A library behaviour in which every statistical call succeeds with
`(test_stat, p_value) = (0, 1)` and plotting succeeds. -/
def okLib : StatsLib where
  shapiro := fun _ => .ok (0, 1)
  levene := fun _ _ => .ok (0, 1)
  ttest_ind := fun _ _ _ => .ok (0, 1)
  mannwhitneyu := fun _ _ => .ok (0, 1)
  kde := fun _ => .ok ()

/-- A library behaviour in which every statistical call raises (e.g.
numerically degenerate input in every step). -/
def errLib : StatsLib where
  shapiro := fun _ => .error "degenerate input"
  levene := fun _ _ => .error "degenerate input"
  ttest_ind := fun _ _ _ => .error "degenerate input"
  mannwhitneyu := fun _ _ => .error "degenerate input"
  kde := fun _ => .error "degenerate input"

/-- A library behaviour in which the normality test raises on every
sample (so no sample is found normal) and everything else succeeds. -/
def shapiroFailLib : StatsLib :=
  { okLib with shapiro := fun _ => .error "shapiro failed" }

/-- A library behaviour in which the normality test succeeds with
`p_value = 1` but the density-plot rendering raises — as pandas'
`Series.plot.kde` does on a constant sample (`LinAlgError: singular
matrix` from the underlying Gaussian KDE). -/
def kdeFailLib : StatsLib :=
  { okLib with
    shapiro := fun _ => .ok (1, 1)
    kde := fun _ => .error "LinAlgError: singular matrix" }

/-- A library behaviour modelling scipy's documented requirement that
`shapiro` needs at least 3 observations: it raises on samples shorter
than 3 and succeeds otherwise. -/
def shortFailLib : StatsLib :=
  { okLib with
    shapiro := fun q =>
      if q.length < 3 then .error "InsufficientDataError" else .ok (1, 1) }

/-- A library behaviour whose `levene` depends on its two samples only
through the symmetric quantity `n1 + n2`, hence is symmetric in them. -/
def symLib : StatsLib :=
  { okLib with
    levene := fun a b => .ok (0, ((a.length + b.length : ℕ) : ℚ) / 100) }

/-- A library behaviour that differs from `shapiroFailLib` only in the
outcome of the homogeneity test (its `levene` raises instead of
succeeding). -/
def leveneDiffLib : StatsLib :=
  { shapiroFailLib with levene := fun _ _ => .error "levene failed" }

/-- A concrete 4-row dataframe with grouping column `"group"` (values
`"A"`, `"B"`) and numeric column `"Purchase"`; the last row's
`Purchase` cell is missing. -/
def dfAB : DataFrame :=
  [ ⟨fun c => if c = "group" then "A" else "",
      fun c => if c = "Purchase" then some 1 else none⟩,
    ⟨fun c => if c = "group" then "A" else "",
      fun c => if c = "Purchase" then some 2 else none⟩,
    ⟨fun c => if c = "group" then "B" else "",
      fun c => if c = "Purchase" then some 3 else none⟩,
    ⟨fun c => if c = "group" then "B" else "", fun _ => none⟩ ]

/-- Sanity check on the dataframe model: filtering `dfAB` on
`group == "A"` and dropping missing `Purchase` cells yields `[1, 2]`,
and on `group == "B"` yields `[3]` (the missing cell is dropped). -/
lemma extract_sample_dfAB :
    extract_sample dfAB "group" "A" "Purchase" = [1, 2] ∧
    extract_sample dfAB "group" "B" "Purchase" = [3] := by
  decide

/-! Helper equation lemmas, shared by the claim theorems below. -/

/-- Threshold thinning shared by all four steps: the second component
of the `not p_value < 0.05` branch pair is exactly `p_value ≥ 0.05`. -/
lemma snd_ite_threshold (p : ℚ) (a b : List LogEvent) :
    (if ¬ p < 1/20 then (a, true) else (b, false)).2 = decide (1/20 ≤ p) := by
  by_cases hp : p < 1/20
  · rw [if_neg (not_not_intro hp), decide_eq_false (not_le.mpr hp)]
  · rw [if_pos hp, decide_eq_true (not_lt.mp hp)]

/-- Behaviour of `check_normality` when `shapiro` raises. -/
lemma check_normality_err (S : StatsLib) (q : List ℚ) (plot : Bool)
    (e : String) (h : S.shapiro q = .error e) :
    check_normality S q plot = ([.normError], false) := by
  unfold check_normality; rw [h]

/-- Behaviour of `check_normality` when `shapiro` returns `(stat, p)`
and the optional plot rendering does not raise. -/
lemma check_normality_ok (S : StatsLib) (q : List ℚ) (plot : Bool)
    (stat p : ℚ) (h : S.shapiro q = .ok (stat, p))
    (hk : plot = true → S.kde q = .ok ()) :
    check_normality S q plot =
      if ¬ p < 1/20 then ([.normStat stat p, .normPass], true)
      else ([.normStat stat p, .normFail], false) := by
  unfold check_normality; rw [h]
  cases plot
  · rfl
  · rw [hk rfl]; rfl

/-- Behaviour of `check_homogeneity` when `levene` raises. -/
lemma check_homogeneity_err (S : StatsLib) (q1 q2 : List ℚ) (e : String)
    (h : S.levene q1 q2 = .error e) :
    check_homogeneity S q1 q2 = ([.homError], false) := by
  unfold check_homogeneity; rw [h]

/-- Behaviour of `check_homogeneity` when `levene` returns `(stat, p)`. -/
lemma check_homogeneity_ok (S : StatsLib) (q1 q2 : List ℚ) (stat p : ℚ)
    (h : S.levene q1 q2 = .ok (stat, p)) :
    check_homogeneity S q1 q2 =
      if ¬ p < 1/20 then ([.homStat stat p, .homPass], true)
      else ([.homStat stat p, .homFail], false) := by
  unfold check_homogeneity; rw [h]

/-- Behaviour of `apply_parametric` when `ttest_ind` raises. -/
lemma apply_parametric_err (S : StatsLib) (q1 q2 : List ℚ) (homogen : Bool)
    (e : String) (h : S.ttest_ind q1 q2 homogen = .error e) :
    apply_parametric S q1 q2 homogen = ([.paramStart, .paramError], false) := by
  unfold apply_parametric; rw [h]

/-- Behaviour of `apply_parametric` when `ttest_ind` returns `(stat, p)`. -/
lemma apply_parametric_ok (S : StatsLib) (q1 q2 : List ℚ) (homogen : Bool)
    (stat p : ℚ) (h : S.ttest_ind q1 q2 homogen = .ok (stat, p)) :
    apply_parametric S q1 q2 homogen =
      if ¬ p < 1/20 then ([.paramStart, .paramStat stat p, .paramPass], true)
      else ([.paramStart, .paramStat stat p, .paramFail], false) := by
  unfold apply_parametric; rw [h]

/-- Behaviour of `apply_nonparametric` when `mannwhitneyu` raises. -/
lemma apply_nonparametric_err (S : StatsLib) (q1 q2 : List ℚ) (e : String)
    (h : S.mannwhitneyu q1 q2 = .error e) :
    apply_nonparametric S q1 q2 = ([.nonparamStart, .nonparamError], false) := by
  unfold apply_nonparametric; rw [h]

/-- Behaviour of `apply_nonparametric` when `mannwhitneyu` returns
`(stat, p)`. -/
lemma apply_nonparametric_ok (S : StatsLib) (q1 q2 : List ℚ) (stat p : ℚ)
    (h : S.mannwhitneyu q1 q2 = .ok (stat, p)) :
    apply_nonparametric S q1 q2 =
      if ¬ p < 1/20 then
        ([.nonparamStart, .nonparamStat stat p, .nonparamPass], true)
      else ([.nonparamStart, .nonparamStat stat p, .nonparamFail], false) := by
  unfold apply_nonparametric; rw [h]

/-- Unfolded form of the orchestrator: both samples are extracted by
`extract_sample` and every step receives them; the homogeneity check
appears in the trace on both branches. -/
lemma apply_ab_test_eq (S : StatsLib) (df : DataFrame)
    (cn v1 v2 cm : String) (plot : Bool) :
    apply_ab_test S df cn v1 v2 cm plot =
      (LogEvent.checkingNorm cn v1 ::
        (check_normality S (extract_sample df cn v1 cm) plot).1 ++
        LogEvent.checkingNorm cn v2 ::
        (check_normality S (extract_sample df cn v2 cm) plot).1 ++
        LogEvent.checkingHom ::
        (check_homogeneity S (extract_sample df cn v1 cm)
          (extract_sample df cn v2 cm)).1 ++
        (if (check_normality S (extract_sample df cn v1 cm) plot).2 &&
            (check_normality S (extract_sample df cn v2 cm) plot).2 then
          (apply_parametric S (extract_sample df cn v1 cm)
            (extract_sample df cn v2 cm)
            (check_homogeneity S (extract_sample df cn v1 cm)
              (extract_sample df cn v2 cm)).2).1
        else
          (apply_nonparametric S (extract_sample df cn v1 cm)
            (extract_sample df cn v2 cm)).1),
       if (check_normality S (extract_sample df cn v1 cm) plot).2 &&
          (check_normality S (extract_sample df cn v2 cm) plot).2 then
         (apply_parametric S (extract_sample df cn v1 cm)
           (extract_sample df cn v2 cm)
           (check_homogeneity S (extract_sample df cn v1 cm)
             (extract_sample df cn v2 cm)).2).2
       else
         (apply_nonparametric S (extract_sample df cn v1 cm)
           (extract_sample df cn v2 cm)).2) := by
  cases h : (check_normality S (extract_sample df cn v1 cm) plot).2 &&
      (check_normality S (extract_sample df cn v2 cm) plot).2 <;>
    simp [apply_ab_test, h]

/-- Verdict form of `apply_ab_test_eq`. -/
lemma apply_ab_test_snd (S : StatsLib) (df : DataFrame)
    (cn v1 v2 cm : String) (plot : Bool) :
    (apply_ab_test S df cn v1 v2 cm plot).2 =
      if (check_normality S (extract_sample df cn v1 cm) plot).2 &&
         (check_normality S (extract_sample df cn v2 cm) plot).2 then
        (apply_parametric S (extract_sample df cn v1 cm)
          (extract_sample df cn v2 cm)
          (check_homogeneity S (extract_sample df cn v1 cm)
            (extract_sample df cn v2 cm)).2).2
      else
        (apply_nonparametric S (extract_sample df cn v1 cm)
          (extract_sample df cn v2 cm)).2 := by
  rw [apply_ab_test_eq]

/-- Membership characterisation of the extracted sample: its elements
are exactly the non-missing `col_main` cells of the rows matching the
group filter. -/
lemma mem_extract_sample (df : DataFrame) (cn v cm : String) (x : ℚ) :
    x ∈ extract_sample df cn v cm ↔
      ∃ r ∈ df, r.strCell cn = v ∧ r.numCell cm = some x := by
  simp [extract_sample, List.mem_filterMap, List.mem_filter, and_assoc]

/-- Output of `check_normality` depends on the library only through
`shapiro` and `kde`. -/
lemma check_normality_congr (S T : StatsLib) (hsh : T.shapiro = S.shapiro)
    (hk : T.kde = S.kde) (q : List ℚ) (plot : Bool) :
    check_normality T q plot = check_normality S q plot := by
  unfold check_normality; rw [hsh, hk]

/-- Output of `apply_nonparametric` depends on the library only
through `mannwhitneyu`. -/
lemma apply_nonparametric_congr (S T : StatsLib)
    (hm : T.mannwhitneyu = S.mannwhitneyu) (q1 q2 : List ℚ) :
    apply_nonparametric T q1 q2 = apply_nonparametric S q1 q2 := by
  unfold apply_nonparametric; rw [hm]

/-- Full output of `check_normality` is independent of the plot flag
whenever the plot rendering does not raise. -/
lemma check_normality_plot_blind (S : StatsLib) (q : List ℚ)
    (p1 p2 : Bool) (hk : S.kde q = .ok ()) :
    check_normality S q p1 = check_normality S q p2 := by
  unfold check_normality
  cases hsh : S.shapiro q with
  | error e => rfl
  | ok pr => cases p1 <;> cases p2 <;> simp [hk]

/-! Claim theorems. -/

/-- C1, counterexample: the claim asserts that the homogeneity check
is performed only in the branch where both samples are normal, but on
a concrete run in which both normality checks return `false` (the
normality test raises on every sample), the `Checking variance
homogeneity:` log event is still emitted — `check_homogeneity` runs
unconditionally before the branch. -/
theorem homogeneity_performed_despite_nonnormal_samples :
    ((check_normality shapiroFailLib
        (extract_sample dfAB "group" "A" "Purchase") false).2 &&
      (check_normality shapiroFailLib
        (extract_sample dfAB "group" "B" "Purchase") false).2) = false ∧
    LogEvent.checkingHom ∈
      (apply_ab_test shapiroFailLib dfAB "group" "A" "B" "Purchase" false).1 :=
  ⟨by decide, by decide⟩

/-- C1 (amended): `apply_ab_test` returns the verdict of
`apply_parametric(sampleA, sampleB, check_homogeneity(sampleA, sampleB))`
when both normality checks return `true`, and the verdict of
`apply_nonparametric(sampleA, sampleB)` otherwise; however, the
homogeneity check is not confined to the normal branch: it is
performed on every run (its result is simply unused on the non-normal
path). -/
theorem branch_selection_with_unconditional_homogeneity (S : StatsLib)
    (df : DataFrame) (cn v1 v2 cm : String) (plot : Bool) :
    (apply_ab_test S df cn v1 v2 cm plot).2 =
      (if (check_normality S (extract_sample df cn v1 cm) plot).2 &&
          (check_normality S (extract_sample df cn v2 cm) plot).2 then
        (apply_parametric S (extract_sample df cn v1 cm)
          (extract_sample df cn v2 cm)
          (check_homogeneity S (extract_sample df cn v1 cm)
            (extract_sample df cn v2 cm)).2).2
      else
        (apply_nonparametric S (extract_sample df cn v1 cm)
          (extract_sample df cn v2 cm)).2) ∧
    LogEvent.checkingHom ∈ (apply_ab_test S df cn v1 v2 cm plot).1 := by
  refine ⟨apply_ab_test_snd S df cn v1 v2 cm plot, ?_⟩
  rw [apply_ab_test_eq]
  simp

/-- C2, counterexample: in the normality step with `plot = true`, the
underlying statistical computation (`shapiro`) succeeds with
`p_value = 1 ≥ 0.05`, yet the verdict is `false`, because the
density-plot rendering inside the same `try` block raises. -/
theorem kde_failure_breaks_threshold_verdict :
    kdeFailLib.shapiro [1, 1, 1] = .ok (1, 1) ∧
    (1 : ℚ)/20 ≤ 1 ∧
    (check_normality kdeFailLib [1, 1, 1] true).2 = false :=
  ⟨rfl, by norm_num, rfl⟩

/-- C2 (amended): in every decision step, when the underlying
statistical computation succeeds with p-value `p` — and, in the
normality step with `plot = true`, the plot rendering also succeeds —
the returned verdict is exactly `p ≥ 0.05`, with the same threshold
`0.05` in all four steps. -/
theorem verdict_eq_p_ge_threshold (S : StatsLib) (q q1 q2 : List ℚ)
    (plot homogen : Bool) (stat p : ℚ) :
    (S.shapiro q = .ok (stat, p) → (plot = true → S.kde q = .ok ()) →
      (check_normality S q plot).2 = decide (1/20 ≤ p)) ∧
    (S.levene q1 q2 = .ok (stat, p) →
      (check_homogeneity S q1 q2).2 = decide (1/20 ≤ p)) ∧
    (S.ttest_ind q1 q2 homogen = .ok (stat, p) →
      (apply_parametric S q1 q2 homogen).2 = decide (1/20 ≤ p)) ∧
    (S.mannwhitneyu q1 q2 = .ok (stat, p) →
      (apply_nonparametric S q1 q2).2 = decide (1/20 ≤ p)) := by
  refine ⟨fun h hk => ?_, fun h => ?_, fun h => ?_, fun h => ?_⟩
  · rw [check_normality_ok S q plot stat p h hk]
    exact snd_ite_threshold p _ _
  · rw [check_homogeneity_ok S q1 q2 stat p h]
    exact snd_ite_threshold p _ _
  · rw [apply_parametric_ok S q1 q2 homogen stat p h]
    exact snd_ite_threshold p _ _
  · rw [apply_nonparametric_ok S q1 q2 stat p h]
    exact snd_ite_threshold p _ _

/-- C2, witness: the amended theorem applied to the concrete library
`okLib`, whose four calls all succeed with `(stat, p) = (0, 1)`. -/
theorem verdict_eq_p_ge_threshold_witness :
    (check_normality okLib [1, 2, 3] true).2 = decide ((1:ℚ)/20 ≤ 1) ∧
    (check_homogeneity okLib [1, 2] [3, 4]).2 = decide ((1:ℚ)/20 ≤ 1) ∧
    (apply_parametric okLib [1, 2] [3, 4] true).2 = decide ((1:ℚ)/20 ≤ 1) ∧
    (apply_nonparametric okLib [1, 2] [3, 4]).2 = decide ((1:ℚ)/20 ≤ 1) := by
  have h := verdict_eq_p_ge_threshold okLib [1, 2, 3] [1, 2] [3, 4] true true 0 1
  exact ⟨h.1 rfl (fun _ => rfl), h.2.1 rfl, h.2.2.1 rfl, h.2.2.2 rfl⟩

/-- C3 (confirmed): a failure raised by the underlying statistical
computation of any of the four steps is caught inside that step and
mapped to verdict `false`, and the orchestrator always produces a
boolean verdict. -/
theorem failures_swallowed_to_false (S : StatsLib) (df : DataFrame)
    (cn v1 v2 cm : String) (q q1 q2 : List ℚ) (plot homogen : Bool)
    (e : String) :
    (S.shapiro q = .error e → (check_normality S q plot).2 = false) ∧
    (S.levene q1 q2 = .error e → (check_homogeneity S q1 q2).2 = false) ∧
    (S.ttest_ind q1 q2 homogen = .error e →
      (apply_parametric S q1 q2 homogen).2 = false) ∧
    (S.mannwhitneyu q1 q2 = .error e →
      (apply_nonparametric S q1 q2).2 = false) ∧
    ((apply_ab_test S df cn v1 v2 cm plot).2 = true ∨
      (apply_ab_test S df cn v1 v2 cm plot).2 = false) := by
  refine ⟨fun h => ?_, fun h => ?_, fun h => ?_, fun h => ?_, ?_⟩
  · rw [check_normality_err S q plot e h]
  · rw [check_homogeneity_err S q1 q2 e h]
  · rw [apply_parametric_err S q1 q2 homogen e h]
  · rw [apply_nonparametric_err S q1 q2 e h]
  · cases (apply_ab_test S df cn v1 v2 cm plot).2
    · exact Or.inr rfl
    · exact Or.inl rfl

/-- C3, witness: the theorem applied to the concrete library `errLib`,
whose four statistical calls all raise. -/
theorem failures_swallowed_to_false_witness :
    (check_normality errLib [1, 2, 3] false).2 = false ∧
    (check_homogeneity errLib [1, 2] [3, 4]).2 = false ∧
    (apply_parametric errLib [1, 2] [3, 4] true).2 = false ∧
    (apply_nonparametric errLib [1, 2] [3, 4]).2 = false := by
  have h := failures_swallowed_to_false errLib dfAB "group" "A" "B" "Purchase"
      [1, 2, 3] [1, 2] [3, 4] false true "degenerate input"
  exact ⟨h.1 rfl, h.2.1 rfl, h.2.2.1 rfl, h.2.2.2.1 rfl⟩

/-- C4, counterexample: on the empty sample, with a library behaviour
that raises `InsufficientDataError` for samples of fewer than 3
observations (scipy's documented behaviour for `shapiro`), the
source's `check_normality` returns the fail-safe verdict `false`,
whereas the spec-mandated behaviour (`check_normality_specSurface`)
surfaces the error: the error is swallowed, not surfaced. -/
theorem insufficient_data_error_not_surfaced :
    (check_normality shortFailLib [] false).2 = false ∧
    check_normality_specSurface shortFailLib [] false =
      .error "InsufficientDataError" ∧
    check_normality_specSurface shortFailLib [] false ≠
      .ok ((check_normality shortFailLib [] false).2) :=
  ⟨rfl, rfl, fun h => Except.noConfusion h⟩

/-- C4 (amended): for every sample too small for the normality test
(fewer than 3 observations, including the empty sample), the failure
raised by the underlying test is swallowed by `check_normality` into
the fail-safe verdict `false`; no `InsufficientDataError` is surfaced
to the caller. -/
theorem short_sample_failure_swallowed (S : StatsLib) (q : List ℚ)
    (plot : Bool) (e : String) (_hlen : q.length < 3)
    (h : S.shapiro q = .error e) :
    (check_normality S q plot).2 = false := by
  rw [check_normality_err S q plot e h]

/-- C4, witness: the amended theorem applied to the empty sample under
`shortFailLib`. -/
theorem short_sample_failure_swallowed_witness :
    (check_normality shortFailLib [] false).2 = false :=
  short_sample_failure_swallowed shortFailLib [] false
    "InsufficientDataError" (by decide) rfl

/-- C5, counterexample: two concrete samples of equal size whose
sample variances differ (2 versus 8), on which the homoscedastic
(Student, `equal_var=true`) and heteroscedastic (Welch,
`equal_var=false`) variants of the t-test produce the same (squared)
test statistic, with a non-degenerate mean difference — the claim
"different statistics whenever the variances differ" fails. -/
theorem unequal_variances_equal_statistics :
    sampleVariance [0, 2] ≠ sampleVariance [0, 4] ∧
    mean ([0, 2] : List ℚ) ≠ mean ([0, 4] : List ℚ) ∧
    ttest_ind_statSq [0, 2] [0, 4] true = ttest_ind_statSq [0, 2] [0, 4] false := by
  refine ⟨?_, ?_, ?_⟩ <;>
    norm_num [ttest_ind_statSq, studentSE2, welchSE2, sampleVariance, mean]

/-- C5 (amended): `equal_variance=true` selects the pooled (Student)
squared standard error and `equal_variance=false` the unpooled (Welch)
one; when the two samples' variances are exactly equal the two
variants produce identical squared standard errors and identical
(squared) test statistics.  The converse direction of the original
claim is false: the two variants can also coincide when the variances
differ (see the counterexample, with equal sample sizes). -/
theorem equal_variances_give_equal_t_statistics (q1 q2 : List ℚ)
    (h1 : 2 ≤ q1.length) (h2 : 2 ≤ q2.length)
    (hv : sampleVariance q1 = sampleVariance q2) :
    studentSE2 q1 q2 = welchSE2 q1 q2 ∧
    ttest_ind_statSq q1 q2 true = ttest_ind_statSq q1 q2 false := by
  have hn1 : (2 : ℚ) ≤ (q1.length : ℚ) := by exact_mod_cast h1
  have hn2 : (2 : ℚ) ≤ (q2.length : ℚ) := by exact_mod_cast h2
  have h10 : (q1.length : ℚ) ≠ 0 := by linarith
  have h20 : (q2.length : ℚ) ≠ 0 := by linarith
  have h12 : (q1.length : ℚ) + (q2.length : ℚ) - 2 ≠ 0 := by linarith
  have hse : studentSE2 q1 q2 = welchSE2 q1 q2 := by
    unfold studentSE2 welchSE2
    rw [hv]
    field_simp
    ring
  exact ⟨hse, by simp [ttest_ind_statSq, hse]⟩

/-- C5, witness: the amended theorem applied to two samples with
exactly equal variances. -/
theorem equal_variances_give_equal_t_statistics_witness :
    studentSE2 [0, 2] [0, 2] = welchSE2 [0, 2] [0, 2] ∧
    ttest_ind_statSq [0, 2] [0, 2] true = ttest_ind_statSq [0, 2] [0, 2] false :=
  equal_variances_give_equal_t_statistics [0, 2] [0, 2]
    (by decide) (by decide) rfl

/-- C6 (confirmed): since the underlying Levene test is symmetric in
its two samples, `check_homogeneity` returns identical trace and
verdict on `(A, B)` and `(B, A)` — the wrapper adds no asymmetry. -/
theorem check_homogeneity_symmetric (S : StatsLib) (q1 q2 : List ℚ)
    (hsym : ∀ a b, S.levene a b = S.levene b a) :
    check_homogeneity S q1 q2 = check_homogeneity S q2 q1 := by
  unfold check_homogeneity; rw [hsym q1 q2]

/-- C6, witness: the theorem applied to the concrete library `symLib`,
whose `levene` is symmetric. -/
theorem check_homogeneity_symmetric_witness :
    check_homogeneity symLib [1] [2, 3] = check_homogeneity symLib [2, 3] [1] :=
  check_homogeneity_symmetric symLib [1] [2, 3]
    (fun a b =>
      congrArg
        (fun n : ℕ => (Except.ok ((0 : ℚ), ((n : ℚ) / 100)) : Except String (ℚ × ℚ)))
        (Nat.add_comm a.length b.length))

/-- C7 (confirmed): `check_homogeneity` is invoked on every run of
`apply_ab_test` — its log event sits in the trace before the chosen
comparator's events, on both branches — and whenever at least one
normality check returns `false` the final verdict equals that of
`apply_nonparametric` on the two extracted samples and is unchanged
under any modification of the library's `levene` (two runs differing
only in the homogeneity outcome agree on the non-normal path). -/
theorem nonnormal_path_ignores_homogeneity (S T : StatsLib)
    (df : DataFrame) (cn v1 v2 cm : String) (plot : Bool) :
    (∃ pre,
      (apply_ab_test S df cn v1 v2 cm plot).1 =
        pre ++
          (if (check_normality S (extract_sample df cn v1 cm) plot).2 &&
              (check_normality S (extract_sample df cn v2 cm) plot).2 then
            (apply_parametric S (extract_sample df cn v1 cm)
              (extract_sample df cn v2 cm)
              (check_homogeneity S (extract_sample df cn v1 cm)
                (extract_sample df cn v2 cm)).2).1
          else
            (apply_nonparametric S (extract_sample df cn v1 cm)
              (extract_sample df cn v2 cm)).1) ∧
      LogEvent.checkingHom ∈ pre) ∧
    (T.shapiro = S.shapiro → T.kde = S.kde →
      T.mannwhitneyu = S.mannwhitneyu → T.ttest_ind = S.ttest_ind →
      ((check_normality S (extract_sample df cn v1 cm) plot).2 &&
        (check_normality S (extract_sample df cn v2 cm) plot).2) = false →
      (apply_ab_test S df cn v1 v2 cm plot).2 =
        (apply_nonparametric S (extract_sample df cn v1 cm)
          (extract_sample df cn v2 cm)).2 ∧
      (apply_ab_test T df cn v1 v2 cm plot).2 =
        (apply_ab_test S df cn v1 v2 cm plot).2) := by
  constructor
  · refine ⟨LogEvent.checkingNorm cn v1 ::
        (check_normality S (extract_sample df cn v1 cm) plot).1 ++
        LogEvent.checkingNorm cn v2 ::
        (check_normality S (extract_sample df cn v2 cm) plot).1 ++
        LogEvent.checkingHom ::
        (check_homogeneity S (extract_sample df cn v1 cm)
          (extract_sample df cn v2 cm)).1, ?_, by simp⟩
    rw [apply_ab_test_eq]
  · intro hsh hk hm ht hnf
    have e1 := check_normality_congr S T hsh hk (extract_sample df cn v1 cm) plot
    have e2 := check_normality_congr S T hsh hk (extract_sample df cn v2 cm) plot
    constructor
    · rw [apply_ab_test_snd S df cn v1 v2 cm plot, hnf,
        if_neg Bool.false_ne_true]
    · rw [apply_ab_test_snd T df cn v1 v2 cm plot,
        apply_ab_test_snd S df cn v1 v2 cm plot, e1, e2, hnf,
        if_neg Bool.false_ne_true, if_neg Bool.false_ne_true]
      exact congrArg Prod.snd
        (apply_nonparametric_congr S T hm (extract_sample df cn v1 cm)
          (extract_sample df cn v2 cm))

/-- C7, witness: the theorem applied to `shapiroFailLib` (no sample is
found normal) and `leveneDiffLib`, which differs from it only in the
outcome of the homogeneity test. -/
theorem nonnormal_path_ignores_homogeneity_witness :
    (apply_ab_test shapiroFailLib dfAB "group" "A" "B" "Purchase" false).2 =
      (apply_nonparametric shapiroFailLib
        (extract_sample dfAB "group" "A" "Purchase")
        (extract_sample dfAB "group" "B" "Purchase")).2 ∧
    (apply_ab_test leveneDiffLib dfAB "group" "A" "B" "Purchase" false).2 =
      (apply_ab_test shapiroFailLib dfAB "group" "A" "B" "Purchase" false).2 :=
  (nonnormal_path_ignores_homogeneity shapiroFailLib leveneDiffLib dfAB
      "group" "A" "B" "Purchase" false).2 rfl rfl rfl rfl (by decide)

/-- C8 (confirmed): the checkers are deterministic functions of their
inputs with no hidden mutable state — the only mutable state the
module touches is the global logger's handler list, and the trace and
verdict of `check_normality` and `check_homogeneity` are independent
of the incoming logger state; in particular two successive calls on
the same inputs (the second starting from the logger state left by the
first) return identical results. -/
theorem checkers_have_no_hidden_state (S : StatsLib)
    (st st' : LoggerState) (q q1 q2 : List ℚ) (plot : Bool) :
    (check_normality_run S st q plot).2 = (check_normality_run S st' q plot).2 ∧
    (check_normality_run S (check_normality_run S st q plot).1 q plot).2 =
      (check_normality_run S st q plot).2 ∧
    (check_homogeneity_run S st q1 q2).2 = (check_homogeneity_run S st' q1 q2).2 ∧
    (check_homogeneity_run S (check_homogeneity_run S st q1 q2).1 q1 q2).2 =
      (check_homogeneity_run S st q1 q2).2 :=
  ⟨rfl, rfl, rfl, rfl⟩

/-- C9 (confirmed): each of the two samples is derived by filtering
the rows whose grouping-column cell equals the group value, taking the
main column, and dropping missing values — an element belongs to the
extracted sample exactly when some matching row holds it as a
non-missing cell — and every subsequent step (both normality checks,
the homogeneity check, the chosen comparator) receives exactly these
two extracted samples. -/
theorem samples_extracted_once_and_passed_unchanged (S : StatsLib)
    (df : DataFrame) (cn v1 v2 cm v : String) (plot : Bool) (x : ℚ) :
    (x ∈ extract_sample df cn v cm ↔
      ∃ r ∈ df, r.strCell cn = v ∧ r.numCell cm = some x) ∧
    apply_ab_test S df cn v1 v2 cm plot =
      (LogEvent.checkingNorm cn v1 ::
        (check_normality S (extract_sample df cn v1 cm) plot).1 ++
        LogEvent.checkingNorm cn v2 ::
        (check_normality S (extract_sample df cn v2 cm) plot).1 ++
        LogEvent.checkingHom ::
        (check_homogeneity S (extract_sample df cn v1 cm)
          (extract_sample df cn v2 cm)).1 ++
        (if (check_normality S (extract_sample df cn v1 cm) plot).2 &&
            (check_normality S (extract_sample df cn v2 cm) plot).2 then
          (apply_parametric S (extract_sample df cn v1 cm)
            (extract_sample df cn v2 cm)
            (check_homogeneity S (extract_sample df cn v1 cm)
              (extract_sample df cn v2 cm)).2).1
        else
          (apply_nonparametric S (extract_sample df cn v1 cm)
            (extract_sample df cn v2 cm)).1),
       if (check_normality S (extract_sample df cn v1 cm) plot).2 &&
          (check_normality S (extract_sample df cn v2 cm) plot).2 then
         (apply_parametric S (extract_sample df cn v1 cm)
           (extract_sample df cn v2 cm)
           (check_homogeneity S (extract_sample df cn v1 cm)
             (extract_sample df cn v2 cm)).2).2
       else
         (apply_nonparametric S (extract_sample df cn v1 cm)
           (extract_sample df cn v2 cm)).2) :=
  ⟨mem_extract_sample df cn v cm x, apply_ab_test_eq S df cn v1 v2 cm plot⟩

/-- C10, counterexample: on a concrete sample for which the normality
test succeeds with `p_value = 1` but the density-plot rendering raises
(as pandas' KDE plot does on a constant sample), `check_normality`
returns `false` with `plot = true` and `true` with `plot = false`: the
plot flag changes the returned verdict. -/
theorem plot_flag_changes_verdict_on_kde_failure :
    (check_normality kdeFailLib [1, 1, 1] true).2 = false ∧
    (check_normality kdeFailLib [1, 1, 1] false).2 = true :=
  ⟨rfl, by norm_num [check_normality, kdeFailLib, okLib]⟩

/-- C10 (amended): whenever the plot rendering does not raise, the
verdict (indeed the full trace-and-verdict output) of
`check_normality`, and hence of `apply_ab_test`, is the same whether
the plot flag is true or false. -/
theorem plot_flag_cosmetic_when_kde_ok (S : StatsLib) (df : DataFrame)
    (cn v1 v2 cm : String) (q : List ℚ) (p1 p2 : Bool) :
    (S.kde q = .ok () → check_normality S q p1 = check_normality S q p2) ∧
    (S.kde (extract_sample df cn v1 cm) = .ok () →
      S.kde (extract_sample df cn v2 cm) = .ok () →
      apply_ab_test S df cn v1 v2 cm p1 = apply_ab_test S df cn v1 v2 cm p2) := by
  constructor
  · exact fun hk => check_normality_plot_blind S q p1 p2 hk
  · intro h1 h2
    rw [apply_ab_test_eq S df cn v1 v2 cm p1, apply_ab_test_eq S df cn v1 v2 cm p2,
      check_normality_plot_blind S (extract_sample df cn v1 cm) p1 p2 h1,
      check_normality_plot_blind S (extract_sample df cn v2 cm) p1 p2 h2]

/-- C10, witness: the amended theorem applied to the concrete library
`okLib`, whose plot rendering always succeeds. -/
theorem plot_flag_cosmetic_when_kde_ok_witness :
    check_normality okLib [5] true = check_normality okLib [5] false ∧
    apply_ab_test okLib dfAB "group" "A" "B" "Purchase" true =
      apply_ab_test okLib dfAB "group" "A" "B" "Purchase" false := by
  have h := plot_flag_cosmetic_when_kde_ok okLib dfAB "group" "A" "B"
      "Purchase" [5] true false
  exact ⟨h.1 rfl, h.2 rfl rfl⟩

end ABTest
